import Mathlib

/-!
Shallow embedding of the Job-Portal single-page client
(src/frontend/src/App.js) and proofs of the specification claims about it.

The client keeps a session consisting of a token persisted in
localStorage, an in-memory axios default Authorization header, the current
user record and a loading flag.  HTTP calls are modelled as their decoded
outcome: a value of type Except ApiError α, where ApiError carries the
optional string found at error.response?.data?.detail.  Event handlers are
embedded as pure functions from the call outcome to the next state and, for
the dashboard handlers, to the list of observable effects they perform.
-/

namespace JobPortal

/-- A user record as consumed by the client: display name and role
(role is one of candidate / employer / admin, but the client stores the
raw string). -/
structure User where
  full_name : String
  role : String
deriving DecidableEq, Repr

/-- A failed axios call, reduced to the only part the client reads:
error.response?.data?.detail, which may be missing (undefined at any step
of the optional chain). -/
structure ApiError where
  detail : Option String
deriving DecidableEq, Repr

/-- The decoded body of a successful POST /login or POST /register. -/
structure AuthData where
  access_token : String
  user : User
deriving DecidableEq, Repr

/-- The session state of the client: the token persisted in
localStorage under the key token, the axios default Authorization header,
the user state of AuthProvider, and its loading flag. -/
structure SessionState where
  storedToken : Option String
  authHeader : Option String
  user : Option User
  loading : Bool
deriving DecidableEq, Repr

/-- The value returned by login / register to the submitting form:
success flag plus the error string placed in the failure object. -/
structure AuthResult where
  success : Bool
  error : Option String
deriving DecidableEq, Repr

/-- JavaScript a || b on an optional string a: the fallback b is used when
a is undefined or falsy (the empty string). -/
def jsOrString (v : Option String) (fallback : String) : String :=
  match v with
  | some s => if s = "" then fallback else s
  | none => fallback

/-- The template literal Bearer plus token used for the
Authorization header. -/
def bearer (t : String) : String :=
  "Bearer " ++ t

/-- The Authorization header attached to every outgoing axios request is
the current axios default header held in the session. -/
def outgoingAuthHeader (s : SessionState) : Option String :=
  s.authHeader

/-- login (App.js lines 42 to 53): POST /login; on success store the
access token in localStorage, set the axios Authorization default to
Bearer token, set the user, and return success; on failure leave the
state untouched and return the detail string, falling back to the string
Login failed. -/
def login (s : SessionState) (resp : Except ApiError AuthData) :
    SessionState × AuthResult :=
  match resp with
  | Except.ok d =>
      ({ s with
          storedToken := some d.access_token
          authHeader := some (bearer d.access_token)
          user := some d.user },
        { success := true, error := none })
  | Except.error e =>
      (s, { success := false, error := some (jsOrString e.detail "Login failed") })

/-- register (App.js lines 55 to 66): identical to login except for the
endpoint and the fallback string Registration failed. -/
def register (s : SessionState) (resp : Except ApiError AuthData) :
    SessionState × AuthResult :=
  match resp with
  | Except.ok d =>
      ({ s with
          storedToken := some d.access_token
          authHeader := some (bearer d.access_token)
          user := some d.user },
        { success := true, error := none })
  | Except.error e =>
      (s, { success := false, error := some (jsOrString e.detail "Registration failed") })

/-- logout (App.js lines 68 to 72): remove the persisted token, delete
the axios Authorization default, clear the user. -/
def logout (s : SessionState) : SessionState :=
  { s with storedToken := none, authHeader := none, user := none }

/-- The AuthProvider mount state: user is null, loading is true, no
Authorization default is set yet; the persisted token is whatever
localStorage holds. -/
def initialSession (stored : Option String) : SessionState :=
  { storedToken := stored, authHeader := none, user := none, loading := true }

/-- fetchUser (App.js lines 30 to 40): GET /me; on success set the user;
on failure remove the persisted token and delete the Authorization
default (the user state is not written); either way loading becomes
false. -/
def fetchUser (s : SessionState) (resp : Except ApiError User) : SessionState :=
  match resp with
  | Except.ok u => { s with user := some u, loading := false }
  | Except.error _ => { s with storedToken := none, authHeader := none, loading := false }

/-- Result of the startup effect: the resulting session state together
with how many GET /me requests were issued. -/
structure RestoreOutcome where
  state : SessionState
  meFetches : Nat
deriving DecidableEq, Repr

/-- The AuthProvider startup effect (App.js lines 20 to 28): read the
persisted token; if present, set the Authorization default to
Bearer token and run fetchUser once; if absent, only clear the loading
flag, issuing no request. -/
def restoreSession (stored : Option String) (meResp : Except ApiError User) :
    RestoreOutcome :=
  let s := initialSession stored
  match stored with
  | some t =>
      { state := fetchUser { s with authHeader := some (bearer t) } meResp
        meFetches := 1 }
  | none =>
      { state := { s with loading := false }, meFetches := 0 }

/-- What the protected root route renders. -/
inductive Screen where
  | loadingScreen
  | loginScreen
  | candidateDash
  | employerDash
  | adminDash
deriving DecidableEq, Repr

/-- Dashboard (App.js lines 286 to 296): CandidateDashboard when
user.role is candidate, EmployerDashboard when it is employer,
AdminDashboard otherwise. -/
def dashboardFor (u : User) : Screen :=
  if u.role = "candidate" then Screen.candidateDash
  else if u.role = "employer" then Screen.employerDash
  else Screen.adminDash

/-- ProtectedRoute (App.js lines 804 to 816) composed with Dashboard:
while loading show the loading screen; with no user show the Login
screen; otherwise render the dashboard for the user. -/
def protectedRoute (loading : Bool) (user : Option User) : Screen :=
  if loading then Screen.loadingScreen
  else
    match user with
    | none => Screen.loginScreen
    | some u => dashboardFor u

/-- The registration form state (App.js lines 183 to 190). -/
structure RegisterForm where
  email : String
  password : String
  full_name : String
  role : String
  company_name : String
  phone : String
deriving DecidableEq, Repr

/-- Whether the native required checks of the Register form pass, so that
submission is allowed (App.js lines 209 to 260): the full name, email and
password inputs are required; the phone input is not; the company name
input is rendered, and required, exactly when the selected role is
employer. -/
def registerSubmittable (f : RegisterForm) : Bool :=
  f.full_name != "" && f.email != "" && f.password != "" &&
    (if f.role = "employer" then f.company_name != "" else true)

/-- The REST calls the client issues. -/
inductive ApiCall where
  | postLogin
  | postRegister
  | getMe
  | getJobs
  | postJobs
  | getResumes
  | postResumeUpload
  | getApplications
  | postApplications
deriving DecidableEq, Repr

/-- The observable effects of an event handler, in order: issuing an HTTP
request, logging via console.error, rendering an error string inline,
closing the open modal. -/
inductive Event where
  | call (c : ApiCall)
  | consoleError
  | showError (msg : String)
  | closeModal
deriving DecidableEq, Repr

/-- Whether an event renders an error string inline to the user. -/
def isShowError : Event → Bool
  | Event.showError _ => true
  | _ => false

/-- How many requests to a given endpoint a trace issues. -/
def callCount (c : ApiCall) (t : List Event) : Nat :=
  t.countP (fun ev => decide (ev = Event.call c))

/-- Login.handleSubmit (App.js lines 113 to 119): run login; when the
result is not a success, render result.error inline. -/
def loginScreenSubmit (s : SessionState) (resp : Except ApiError AuthData) :
    SessionState × List Event :=
  let p := login s resp
  (p.1, Event.call ApiCall.postLogin ::
    (match p.2.error with
      | some m => [Event.showError m]
      | none => []))

/-- Register.handleSubmit (App.js lines 193 to 199): run register; when
the result is not a success, render result.error inline. -/
def registerScreenSubmit (s : SessionState) (resp : Except ApiError AuthData) :
    SessionState × List Event :=
  let p := register s resp
  (p.1, Event.call ApiCall.postRegister ::
    (match p.2.error with
      | some m => [Event.showError m]
      | none => []))

/-- A job record as rendered by the dashboards. -/
structure Job where
  id : String
  title : String
  company : String
  location : String
  description : String
deriving DecidableEq, Repr

/-- A resume record as rendered by the candidate dashboard. -/
structure Resume where
  id : String
  filename : String
  uploaded_at : String
deriving DecidableEq, Repr

/-- An application record as rendered by the dashboards. -/
structure Application where
  id : String
  job_id : String
  status : String
  applied_at : String
deriving DecidableEq, Repr

/-- fetchJobs (App.js lines 313 to 320 and 476 to 483): GET /jobs; on
success replace the jobs state with the response body; on failure leave
the list as it is. -/
def fetchJobsState (old : List Job) (resp : Except ApiError (List Job)) :
    List Job :=
  match resp with
  | Except.ok data => data
  | Except.error _ => old

/-- fetchResumes (App.js lines 322 to 329): GET /resumes; on success
replace the resumes state with the response body. -/
def fetchResumesState (old : List Resume) (resp : Except ApiError (List Resume)) :
    List Resume :=
  match resp with
  | Except.ok data => data
  | Except.error _ => old

/-- fetchApplications (App.js lines 331 to 338 and 485 to 492): GET
/applications; on success replace the applications state with the
response body. -/
def fetchApplicationsState (old : List Application)
    (resp : Except ApiError (List Application)) : List Application :=
  match resp with
  | Except.ok data => data
  | Except.error _ => old

/-- The effect trace of fetchJobs: one GET /jobs, plus a console.error in
the catch branch. -/
def fetchJobsEvents (resp : Except ApiError (List Job)) : List Event :=
  Event.call ApiCall.getJobs ::
    (match resp with
      | Except.ok _ => []
      | Except.error _ => [Event.consoleError])

/-- The effect trace of fetchResumes: one GET /resumes, plus a
console.error in the catch branch. -/
def fetchResumesEvents (resp : Except ApiError (List Resume)) : List Event :=
  Event.call ApiCall.getResumes ::
    (match resp with
      | Except.ok _ => []
      | Except.error _ => [Event.consoleError])

/-- The effect trace of fetchApplications: one GET /applications, plus a
console.error in the catch branch. -/
def fetchApplicationsEvents (resp : Except ApiError (List Application)) :
    List Event :=
  Event.call ApiCall.getApplications ::
    (match resp with
      | Except.ok _ => []
      | Except.error _ => [Event.consoleError])

/-- handleUploadResume (App.js lines 340 to 352): POST the file to
/resumes/upload; after the await resolves, issue the resumes re-fetch and
close the upload modal; in the catch branch only console.error runs. -/
def handleUploadResume (_file : String) (resp : Except ApiError Unit) :
    List Event :=
  Event.call ApiCall.postResumeUpload ::
    (match resp with
      | Except.ok _ => [Event.call ApiCall.getResumes, Event.closeModal]
      | Except.error _ => [Event.consoleError])

/-- handleApplyToJob (App.js lines 354 to 366): POST the application
payload to /applications; after the await resolves, issue the
applications re-fetch and close the application modal; in the catch
branch only console.error runs. -/
def handleApplyToJob (_jobId _resumeId _coverLetter : String)
    (resp : Except ApiError Unit) : List Event :=
  Event.call ApiCall.postApplications ::
    (match resp with
      | Except.ok _ => [Event.call ApiCall.getApplications, Event.closeModal]
      | Except.error _ => [Event.consoleError])

/-- handleCreateJob (App.js lines 494 to 502): POST the job payload to
/jobs; after the await resolves, issue the jobs re-fetch and close the
job modal; in the catch branch only console.error runs. -/
def handleCreateJob (resp : Except ApiError Unit) : List Event :=
  Event.call ApiCall.postJobs ::
    (match resp with
      | Except.ok _ => [Event.call ApiCall.getJobs, Event.closeModal]
      | Except.error _ => [Event.consoleError])

/-- The payload POSTed to /applications. -/
structure ApplicationPayload where
  job_id : String
  resume_id : String
  cover_letter : String
deriving DecidableEq, Repr

/-- ApplicationModal.handleSubmit (App.js lines 631 to 636): when the
selected resume id is truthy (a non-empty string) call
onSubmit(job.id, selectedResume, coverLetter); otherwise do nothing. -/
def applicationModalSubmit (jobId selectedResume coverLetter : String) :
    Option ApplicationPayload :=
  if selectedResume ≠ "" then
    some { job_id := jobId, resume_id := selectedResume, cover_letter := coverLetter }
  else
    none

/-- A JavaScript number as produced by parseInt: either NaN or an
integer. -/
inductive JsInt where
  | nan
  | int (n : Int)
deriving DecidableEq, Repr

/-- JavaScript String.prototype.trim: remove whitespace from both ends
of the string.  (Defined structurally over the character list so that it
evaluates inside the kernel.) -/
def jsTrim (s : String) : String :=
  String.mk (((s.data.dropWhile Char.isWhitespace).reverse.dropWhile
    Char.isWhitespace).reverse)

/-- The numeric value of a list of decimal digit characters
(48 is the code point of the digit zero). -/
def digitsToNat (ds : List Char) : Nat :=
  ds.foldl (fun acc c => acc * 10 + (c.toNat - 48)) 0

/-- JavaScript parseInt on a string with no radix argument: skip
surrounding whitespace, read an optional sign, then the longest prefix of
decimal digits; NaN when no digit is read.  (The hexadecimal
autodetection of parseInt is not reached here: the salary fields are
numeric inputs.) -/
def parseIntJs (s : String) : JsInt :=
  let cs := (jsTrim s).data
  let signed : List Char → (Int → Int) × List Char := fun l =>
    match l with
    | '-' :: rest => (fun n => -n, rest)
    | '+' :: rest => (fun n => n, rest)
    | _ => (fun n => n, l)
  let p := signed cs
  let ds := p.2.takeWhile Char.isDigit
  if ds.isEmpty then JsInt.nan else JsInt.int (p.1 (digitsToNat ds))

/-- The JobModal form state (App.js lines 695 to 704): the salary fields
are raw input strings. -/
structure JobForm where
  title : String
  company : String
  location : String
  salary_min : String
  salary_max : String
  description : String
  requirements : List String
  job_type : String
deriving DecidableEq, Repr

/-- The payload POSTed to /jobs: the salary fields are null (none), NaN
or an integer. -/
structure JobPayload where
  title : String
  company : String
  location : String
  salary_min : Option JsInt
  salary_max : Option JsInt
  description : String
  requirements : List String
  job_type : String
deriving DecidableEq, Repr

/-- JobModal.handleSubmit formatting (App.js lines 706 to 715): spread
the form state, replace each salary field by parseInt of it when the
string is truthy (non-empty) and by null otherwise, and keep only the
requirement entries whose trim is non-empty. -/
def formatJobData (f : JobForm) : JobPayload :=
  { title := f.title
    company := f.company
    location := f.location
    salary_min := if f.salary_min ≠ "" then some (parseIntJs f.salary_min) else none
    salary_max := if f.salary_max ≠ "" then some (parseIntJs f.salary_max) else none
    description := f.description
    requirements := f.requirements.filter (fun req => jsTrim req ≠ "")
    job_type := f.job_type }

/-- Follows the words of the specification for claim C1, to be compared
with the source behaviour: the error string is taken from the detail
field of the response, and the generic fallback is used only when the
detail field is absent. -/
def specClaimedErrorMessage (detail : Option String) (fallback : String) : String :=
  match detail with
  | some m => m
  | none => fallback

/-- Follows the words of the specification for claim C3, to be compared
with the source behaviour: an error from an API call is shown inline to
the user when its trace renders some error string. -/
def specClaimedInlineDisplay (failureTrace : List Event) : Bool :=
  failureTrace.any isShowError

/-- Whether a handler trace closes the open modal. -/
def modalClosed (t : List Event) : Bool :=
  t.any (fun ev => decide (ev = Event.closeModal))

/-! ## Claims -/

/-- C1 (counterexample): the claim says the error string is taken from
the detail field of the response, falling back to the generic message
only when the detail is absent.  On a failed login whose detail field is
present but empty, the source returns the fallback Login failed, not the
detail string that specClaimedErrorMessage prescribes. -/
theorem c1_counterexample :
    (login { storedToken := none, authHeader := none, user := none, loading := false }
        (Except.error { detail := some "" })).2.error = some "Login failed" ∧
    specClaimedErrorMessage (some "") "Login failed" = "" ∧
    (("Login failed" : String) == "") = false := by
  refine ⟨rfl, rfl, by decide⟩

/-- C1 (amended): on a successful response, login and register persist
the returned access token, set the Authorization header to Bearer token,
set the returned user and return success; on a failed response the
session state is unchanged and the call returns the detail string of the
response, falling back to the generic message (Login failed respectively
Registration failed) when the detail is absent or empty. -/
theorem c1_login_register (s : SessionState) (d : AuthData) (e : ApiError)
    (m : String) :
    login s (Except.ok d) =
      ({ storedToken := some d.access_token, authHeader := some (bearer d.access_token),
          user := some d.user, loading := s.loading },
        { success := true, error := none }) ∧
    register s (Except.ok d) =
      ({ storedToken := some d.access_token, authHeader := some (bearer d.access_token),
          user := some d.user, loading := s.loading },
        { success := true, error := none }) ∧
    (login s (Except.error e)).1 = s ∧
    (login s (Except.error e)).2.success = false ∧
    (register s (Except.error e)).1 = s ∧
    (register s (Except.error e)).2.success = false ∧
    (m ≠ "" → (login s (Except.error { detail := some m })).2.error = some m) ∧
    (login s (Except.error { detail := none })).2.error = some "Login failed" ∧
    (login s (Except.error { detail := some "" })).2.error = some "Login failed" ∧
    (m ≠ "" → (register s (Except.error { detail := some m })).2.error = some m) ∧
    (register s (Except.error { detail := none })).2.error = some "Registration failed" ∧
    (register s (Except.error { detail := some "" })).2.error =
      some "Registration failed" := by
  refine ⟨rfl, rfl, rfl, rfl, rfl, rfl, ?_, rfl, rfl, ?_, rfl, rfl⟩
  · intro h
    simp [login, jsOrString, h]
  · intro h
    simp [register, jsOrString, h]

/-- C1 (witness): a failed login whose detail is the non-empty string
bad credentials surfaces exactly that string. -/
theorem c1_login_register_witness :
    (login { storedToken := none, authHeader := none, user := none, loading := false }
        (Except.error { detail := some "bad credentials" })).2.error =
      some "bad credentials" := by
  have h := c1_login_register
    { storedToken := none, authHeader := none, user := none, loading := false }
    { access_token := "t", user := { full_name := "A", role := "candidate" } }
    { detail := none } "bad credentials"
  exact h.2.2.2.2.2.2.1 (by decide)

/-- C2: on startup, with no persisted token no GET /me is issued and the
session ends unauthenticated; with a persisted token exactly one GET /me
is issued with the Authorization default set to Bearer token; on success
the session holds the returned user, the token and the header; on failure
the persisted token and the in-memory header are cleared and the session
ends unauthenticated. -/
theorem c2_session_restore (t : String) (u : User) (e : ApiError)
    (r : Except ApiError User) :
    (restoreSession none r).meFetches = 0 ∧
    (restoreSession none r).state =
      { storedToken := none, authHeader := none, user := none, loading := false } ∧
    (restoreSession (some t) (Except.ok u)).meFetches = 1 ∧
    (restoreSession (some t) (Except.ok u)).state =
      { storedToken := some t, authHeader := some (bearer t),
        user := some u, loading := false } ∧
    (restoreSession (some t) (Except.error e)).meFetches = 1 ∧
    (restoreSession (some t) (Except.error e)).state =
      { storedToken := none, authHeader := none, user := none, loading := false } :=
  ⟨rfl, rfl, rfl, rfl, rfl, rfl⟩

/-- C3 (counterexample): the claim says every API error, dashboard
mutations and collection fetches included, is reduced to a string and
shown inline to the user.  A failed resume upload only logs to
console.error and renders nothing inline: specClaimedInlineDisplay is
false on its trace. -/
theorem c3_counterexample :
    specClaimedInlineDisplay
      (handleUploadResume "resume.pdf" (Except.error { detail := none })) = false ∧
    handleUploadResume "resume.pdf" (Except.error { detail := none }) =
      [Event.call ApiCall.postResumeUpload, Event.consoleError] :=
  ⟨rfl, rfl⟩

/-- C3 (amended): every error from an API call is caught at its call
site, the failed endpoint is called exactly once (no retry), and logging
goes no further than console output.  Login and register failures are
reduced to a single string with a generic fallback and shown inline;
the dashboard mutations (resume upload, job application, job creation)
and the collection fetches only log the error to the console and show
nothing inline. -/
theorem c3_error_policy (s : SessionState) (e : ApiError)
    (file jobId resumeId coverLetter : String) :
    (loginScreenSubmit s (Except.error e)).2 =
      [Event.call ApiCall.postLogin,
        Event.showError (jsOrString e.detail "Login failed")] ∧
    (registerScreenSubmit s (Except.error e)).2 =
      [Event.call ApiCall.postRegister,
        Event.showError (jsOrString e.detail "Registration failed")] ∧
    handleUploadResume file (Except.error e) =
      [Event.call ApiCall.postResumeUpload, Event.consoleError] ∧
    handleApplyToJob jobId resumeId coverLetter (Except.error e) =
      [Event.call ApiCall.postApplications, Event.consoleError] ∧
    handleCreateJob (Except.error e) =
      [Event.call ApiCall.postJobs, Event.consoleError] ∧
    fetchJobsEvents (Except.error e) =
      [Event.call ApiCall.getJobs, Event.consoleError] ∧
    fetchResumesEvents (Except.error e) =
      [Event.call ApiCall.getResumes, Event.consoleError] ∧
    fetchApplicationsEvents (Except.error e) =
      [Event.call ApiCall.getApplications, Event.consoleError] ∧
    callCount ApiCall.postLogin (loginScreenSubmit s (Except.error e)).2 = 1 ∧
    callCount ApiCall.postResumeUpload (handleUploadResume file (Except.error e)) = 1 ∧
    callCount ApiCall.postApplications
      (handleApplyToJob jobId resumeId coverLetter (Except.error e)) = 1 ∧
    callCount ApiCall.postJobs (handleCreateJob (Except.error e)) = 1 ∧
    specClaimedInlineDisplay (handleUploadResume file (Except.error e)) = false ∧
    specClaimedInlineDisplay
      (handleApplyToJob jobId resumeId coverLetter (Except.error e)) = false ∧
    specClaimedInlineDisplay (handleCreateJob (Except.error e)) = false ∧
    specClaimedInlineDisplay (fetchJobsEvents (Except.error e)) = false ∧
    specClaimedInlineDisplay (fetchResumesEvents (Except.error e)) = false ∧
    specClaimedInlineDisplay (fetchApplicationsEvents (Except.error e)) = false :=
  ⟨rfl, rfl, rfl, rfl, rfl, rfl, rfl, rfl, rfl, rfl, rfl, rfl, rfl, rfl, rfl,
    rfl, rfl, rfl⟩

/-- C4: after a successful login, register, or session restore with
token t, the Authorization header attached to outgoing requests is
Bearer t, the token is persisted, and restoring a later session from the
token persisted by login re-attaches the same header. -/
theorem c4_bearer_header (s : SessionState) (d : AuthData) (u : User) :
    outgoingAuthHeader (login s (Except.ok d)).1 = some (bearer d.access_token) ∧
    (login s (Except.ok d)).1.storedToken = some d.access_token ∧
    (login s (Except.ok d)).1.user = some d.user ∧
    outgoingAuthHeader (register s (Except.ok d)).1 = some (bearer d.access_token) ∧
    (register s (Except.ok d)).1.storedToken = some d.access_token ∧
    outgoingAuthHeader (restoreSession (some d.access_token) (Except.ok u)).state =
      some (bearer d.access_token) ∧
    (restoreSession (some d.access_token) (Except.ok u)).state.storedToken =
      some d.access_token ∧
    outgoingAuthHeader
        (restoreSession (login s (Except.ok d)).1.storedToken (Except.ok u)).state =
      some (bearer d.access_token) :=
  ⟨rfl, rfl, rfl, rfl, rfl, rfl, rfl, rfl⟩

/-- C5: logout clears the persisted token, the Authorization header and
the user, so the current render of the protected route shows the login
screen, and a reload restoring the session from the cleared storage
issues no fetch and also shows the login screen. -/
theorem c5_logout_clears (s : SessionState) (r : Except ApiError User) :
    (logout s).storedToken = none ∧
    (logout s).authHeader = none ∧
    (logout s).user = none ∧
    protectedRoute false (logout s).user = Screen.loginScreen ∧
    (restoreSession (logout s).storedToken r).meFetches = 0 ∧
    (restoreSession (logout s).storedToken r).state.user = none ∧
    (restoreSession (logout s).storedToken r).state.loading = false ∧
    protectedRoute (restoreSession (logout s).storedToken r).state.loading
      (restoreSession (logout s).storedToken r).state.user = Screen.loginScreen :=
  ⟨rfl, rfl, rfl, rfl, rfl, rfl, rfl, rfl⟩

/-- C6: in the registration form, when the selected role is employer,
submission is allowed only with a non-empty company name; when the
selected role is candidate there is no company-name requirement:
submittability is exactly the required checks on full name, email and
password. -/
theorem c6_company_required (f : RegisterForm) :
    (f.role = "employer" → registerSubmittable f = true → f.company_name ≠ "") ∧
    (f.role = "candidate" →
      (registerSubmittable f = true ↔
        (f.full_name ≠ "" ∧ f.email ≠ "" ∧ f.password ≠ ""))) := by
  constructor
  · intro h1 h2
    simp [registerSubmittable, h1] at h2
    exact h2.2
  · intro h1
    have hne : ("candidate" : String) ≠ "employer" := by decide
    simp [registerSubmittable, h1, hne]
    tauto

/-- C6 (witness): a candidate form with an empty company name and the
other required fields filled is submittable, while the same form with
role employer is not. -/
theorem c6_company_required_witness :
    registerSubmittable
      { email := "a@b.c", password := "pw", full_name := "Alice",
        role := "candidate", company_name := "", phone := "" } = true :=
  ((c6_company_required
    { email := "a@b.c", password := "pw", full_name := "Alice",
      role := "candidate", company_name := "", phone := "" }).2 rfl).mpr
    (by refine ⟨by decide, by decide, by decide⟩)

/-- C7: each mutating handler issues the re-fetch of its collection only
after its POST has resolved successfully, then closes the modal; on a
failed mutation no re-fetch is issued and the modal stays open; and a
collection fetch replaces the local list by the server collection,
independently of the previous list. -/
theorem c7_refetch_after_write (file jobId resumeId coverLetter : String)
    (e : ApiError) (oldJ newJ : List Job) (oldR newR : List Resume)
    (oldA newA : List Application) :
    handleUploadResume file (Except.ok ()) =
      [Event.call ApiCall.postResumeUpload, Event.call ApiCall.getResumes,
        Event.closeModal] ∧
    handleApplyToJob jobId resumeId coverLetter (Except.ok ()) =
      [Event.call ApiCall.postApplications, Event.call ApiCall.getApplications,
        Event.closeModal] ∧
    handleCreateJob (Except.ok ()) =
      [Event.call ApiCall.postJobs, Event.call ApiCall.getJobs, Event.closeModal] ∧
    callCount ApiCall.getResumes (handleUploadResume file (Except.error e)) = 0 ∧
    modalClosed (handleUploadResume file (Except.error e)) = false ∧
    callCount ApiCall.getApplications
      (handleApplyToJob jobId resumeId coverLetter (Except.error e)) = 0 ∧
    modalClosed (handleApplyToJob jobId resumeId coverLetter (Except.error e)) = false ∧
    callCount ApiCall.getJobs (handleCreateJob (Except.error e)) = 0 ∧
    modalClosed (handleCreateJob (Except.error e)) = false ∧
    fetchResumesState oldR (Except.ok newR) = newR ∧
    fetchApplicationsState oldA (Except.ok newA) = newA ∧
    fetchJobsState oldJ (Except.ok newJ) = newJ :=
  ⟨rfl, rfl, rfl, rfl, rfl, rfl, rfl, rfl, rfl, rfl, rfl, rfl⟩

/-- C8: while the session restore is loading the route renders the
loading screen; a completed restore always leaves loading false; an
unauthenticated visitor sees the login screen; an authenticated user
sees CandidateDashboard exactly when the role is candidate,
EmployerDashboard exactly when it is employer, and AdminDashboard in
every other case. -/
theorem c8_route_guard (u : User) (o : Option User) (st : Option String)
    (r : Except ApiError User) :
    protectedRoute true o = Screen.loadingScreen ∧
    (restoreSession st r).state.loading = false ∧
    protectedRoute false none = Screen.loginScreen ∧
    (protectedRoute false (some u) = Screen.candidateDash ↔ u.role = "candidate") ∧
    (protectedRoute false (some u) = Screen.employerDash ↔ u.role = "employer") ∧
    (protectedRoute false (some u) = Screen.adminDash ↔
      (u.role ≠ "candidate" ∧ u.role ≠ "employer")) := by
  refine ⟨rfl, ?_, rfl, ?_, ?_, ?_⟩
  · cases st with
    | none => rfl
    | some t => cases r <;> rfl
  all_goals
    show dashboardFor u = _ ↔ _
  all_goals
    by_cases h1 : u.role = "candidate" <;> by_cases h2 : u.role = "employer" <;>
      simp [dashboardFor, h1, h2]

/-- C8 (witness): a user with role candidate is routed to the candidate
dashboard once loading is over. -/
theorem c8_route_guard_witness :
    protectedRoute false (some { full_name := "Alice", role := "candidate" }) =
      Screen.candidateDash :=
  ((c8_route_guard { full_name := "Alice", role := "candidate" } none none
    (Except.ok { full_name := "Alice", role := "candidate" })).2.2.2.1).mpr rfl

/-- C9: the application modal triggers the create-application call
exactly when the selected resume id is non-empty, passing the job id,
the resume id and the cover letter through unchanged; the cover letter
may be any string, the empty one included; with no resume selected the
submit does nothing. -/
theorem c9_application_guard (j r c : String) :
    ((applicationModalSubmit j r c).isSome ↔ r ≠ "") ∧
    (r ≠ "" → applicationModalSubmit j r c =
      some { job_id := j, resume_id := r, cover_letter := c }) ∧
    applicationModalSubmit j "" c = none := by
  refine ⟨?_, ?_, ?_⟩
  · by_cases h : r = "" <;> simp [applicationModalSubmit, h]
  · intro h
    simp [applicationModalSubmit, h]
  · simp [applicationModalSubmit]

/-- C9 (witness): with a resume selected and an empty cover letter the
payload is submitted as given. -/
theorem c9_application_guard_witness :
    applicationModalSubmit "job1" "res1" "" =
      some { job_id := "job1", resume_id := "res1", cover_letter := "" } :=
  (c9_application_guard "job1" "res1" "").2.1 (by decide)

/-- C10: the payload POSTed on job-form submission has each salary field
equal to the integer parse of the form string when it is non-empty and
null when it is empty, keeps exactly the requirement entries that are
not whitespace-only (non-empty trim), and passes every other field
through unchanged. -/
theorem c10_job_payload (f : JobForm) (req : String) :
    (f.salary_min = "" → (formatJobData f).salary_min = none) ∧
    (f.salary_min ≠ "" → (formatJobData f).salary_min = some (parseIntJs f.salary_min)) ∧
    (f.salary_max = "" → (formatJobData f).salary_max = none) ∧
    (f.salary_max ≠ "" → (formatJobData f).salary_max = some (parseIntJs f.salary_max)) ∧
    (req ∈ (formatJobData f).requirements ↔
      (req ∈ f.requirements ∧ jsTrim req ≠ "")) ∧
    (formatJobData f).title = f.title ∧
    (formatJobData f).company = f.company ∧
    (formatJobData f).location = f.location ∧
    (formatJobData f).description = f.description ∧
    (formatJobData f).job_type = f.job_type := by
  refine ⟨?_, ?_, ?_, ?_, ?_, rfl, rfl, rfl, rfl, rfl⟩
  · intro h
    simp [formatJobData, h]
  · intro h
    simp [formatJobData, h]
  · intro h
    simp [formatJobData, h]
  · intro h
    simp [formatJobData, h]
  · simp [formatJobData, List.mem_filter]

/-- A concrete job form used to evaluate the payload formatting. -/
def sampleJobForm : JobForm :=
  { title := "Engineer", company := "Acme", location := "Remote",
    salary_min := "100", salary_max := "", description := "Build things",
    requirements := ["sql", "  "], job_type := "full-time" }

/-- C10 (witness): on the sample form the minimum salary parses to 100,
the empty maximum becomes null, and the whitespace-only requirement is
dropped while sql is kept. -/
theorem c10_job_payload_witness :
    (formatJobData sampleJobForm).salary_min = some (JsInt.int 100) ∧
    (formatJobData sampleJobForm).salary_max = none ∧
    "sql" ∈ (formatJobData sampleJobForm).requirements := by
  have h := c10_job_payload sampleJobForm "sql"
  refine ⟨?_, h.2.2.1 rfl, (h.2.2.2.2.1).mpr ⟨by decide, by decide⟩⟩
  have h1 := h.2.1 (by decide)
  rw [h1]
  decide

end JobPortal
